import Mathlib

/-!
Shallow embedding of the sandboxed command-execution and run-orchestration
subsystem of `repo-requirements-analyzer`
(`src/repo_requirements_analyzer/main.py` and
`src/repo_requirements_analyzer/code_agent.py`).

External effects are modelled explicitly:

* the operating system's behaviour for each `asyncio.create_subprocess_exec`
  call is a value of `SpawnBehavior`, supplied as a map from spawn index to
  behaviour (spawns happen strictly sequentially inside one tool call);
* the human approval console is modelled by an `autoApprove` flag (the
  `SHELL_AUTO_APPROVE=1` environment variable) and a `response` string (what
  `input()` would return);
* `ShellCommandLogger.log` appends the same record to the in-memory `events`
  list and, as one JSON line, to the jsonl audit file, so a single list of
  `CommandEvent`s models both;
* exceptions are modelled with `Except`: a raised exception is an `error`
  value propagating to the caller.

Strings are sequences of characters, as in Python.  The ASCII fragment of
Python's whitespace and word-character classes is used; it covers every
pattern of the two deny lists and every string the tools construct.
-/

/-- ASCII whitespace, as accepted by Python's `str.strip()` and by `\s` in the
two deny-list regexes (the non-ASCII whitespace code points Python also accepts
never occur in the patterns involved). -/
def pySpace (c : Char) : Bool :=
  c = ' ' || c = '\t' || c = '\n' || c = '\r' || c = '\x0b' || c = '\x0c'

/-- Python `str.strip()`: drop leading and trailing whitespace. -/
def pyStrip (s : String) : String :=
  ⟨((s.data.dropWhile pySpace).reverse.dropWhile pySpace).reverse⟩

/-- Python `str.lower()` on ASCII letters (the approval check only compares
against `"y"` / `"yes"`). -/
def asciiLower (c : Char) : Char :=
  if 'A' ≤ c && c ≤ 'Z' then Char.ofNat (c.toNat + 32) else c

/-- Python `str.lower()`. -/
def pyLower (s : String) : String :=
  ⟨s.data.map asciiLower⟩

/-- `response.strip().lower() in {"y", "yes"}` from `require_approval`. -/
def isYesResponse (response : String) : Bool :=
  pyLower (pyStrip response) = "y" || pyLower (pyStrip response) = "yes"

/-- Match a literal run of characters at the head of `cs`; return the rest. -/
def matchLit : List Char → List Char → Option (List Char)
  | [], cs => some cs
  | _ :: _, [] => none
  | p :: ps, c :: cs => if c = p then matchLit ps cs else none

/-- Match the regex piece `\s+` at the head of `cs` (one or more whitespace
characters; greedy matching is equivalent here because every following token
in the deny lists starts with a non-whitespace character). -/
def wsPlus : List Char → Option (List Char)
  | [] => none
  | c :: cs => if pySpace c then some (cs.dropWhile pySpace) else none

/-- Python regex `\w` (ASCII fragment). -/
def wordChar (c : Char) : Bool :=
  c.isAlphanum || c = '_'

/-- Python regex `\b` placed after a word character: the next character is
absent or not a word character. -/
def atBoundary : List Char → Bool
  | [] => true
  | c :: _ => !wordChar c

/-- Match a literal word followed by `\b` at the head of `cs`. -/
def litThenBoundary (w : String) (cs : List Char) : Bool :=
  match matchLit w.data cs with
  | some r => atBoundary r
  | none => false

/-- The alternation of the deny list in
`code_agent.build_code_shell_function_tool`:
`rm\s+-rf\s+/ | mkfs\b | shutdown\b | reboot\b | dd\s+if= |
 git\s+reset\s+--hard\b | git\s+clean\s+-fdx\b`,
matched at the head of `cs`. -/
def denyCodeAlt (cs : List Char) : Bool :=
  (((matchLit "rm".data cs).bind wsPlus).bind fun r =>
      ((matchLit "-rf".data r).bind wsPlus).bind (matchLit "/".data)).isSome
  || litThenBoundary "mkfs" cs
  || litThenBoundary "shutdown" cs
  || litThenBoundary "reboot" cs
  || (((matchLit "dd".data cs).bind wsPlus).bind (matchLit "if=".data)).isSome
  || (match ((matchLit "git".data cs).bind wsPlus).bind fun r =>
        ((matchLit "reset".data r).bind wsPlus).bind (matchLit "--hard".data) with
      | some r => atBoundary r
      | none => false)
  || (match ((matchLit "git".data cs).bind wsPlus).bind fun r =>
        ((matchLit "clean".data r).bind wsPlus).bind (matchLit "-fdx".data) with
      | some r => atBoundary r
      | none => false)

/-- The `\s` branch of `(^|\s)(...)`: try the alternation after every
whitespace character of the text. -/
def denyCodeSearchTail : List Char → Bool
  | [] => false
  | c :: cs => (pySpace c && denyCodeAlt cs) || denyCodeSearchTail cs

/-- `re.search` of the code-agent deny list `(^|\s)(...)` over the command
text: the alternation matches at the start (the `^` branch; `re.MULTILINE` is
not set) or right after some whitespace character. -/
def denyCodeMatch (s : String) : Bool :=
  denyCodeAlt s.data || denyCodeSearchTail s.data

/-- The alternation of the deny list in `main.build_chat_shell_function_tool`:
`rm|mv|dd|mkfs|shutdown|reboot|git\s+reset|git\s+clean`, followed by `\b`,
matched at the head of `cs`. -/
def denyChatAlt (cs : List Char) : Bool :=
  litThenBoundary "rm" cs
  || litThenBoundary "mv" cs
  || litThenBoundary "dd" cs
  || litThenBoundary "mkfs" cs
  || litThenBoundary "shutdown" cs
  || litThenBoundary "reboot" cs
  || (match ((matchLit "git".data cs).bind wsPlus).bind (matchLit "reset".data) with
      | some r => atBoundary r
      | none => false)
  || (match ((matchLit "git".data cs).bind wsPlus).bind (matchLit "clean".data) with
      | some r => atBoundary r
      | none => false)

/-- `re.search` of `^\s*(...)\b` from the chat shell tool: without
`re.MULTILINE` the `^` anchors at the start of the string only, so the match
skips leading whitespace and tries the alternation there. -/
def denyChatMatch (s : String) : Bool :=
  denyChatAlt (s.data.dropWhile pySpace)

/-- One audit-log record, as assembled by `ShellCommandLogger.log`.  The
wall-clock `timestamp_utc` field is outside the model. -/
structure CommandEvent where
  source : String
  cwd : String
  command : String
  timeout_ms : Int
  timed_out : Bool
  exit_code : Option Int
  duration_ms : Nat
  blocked : Bool
  block_reason : String
  stdout : String
  stderr : String
deriving DecidableEq, Repr

/-- Python slicing `text[:k]` for `k ≥ 0`: the first `k` characters. -/
def pyTake (s : String) (k : Nat) : String :=
  ⟨s.data.take k⟩

/-- `_truncate_text` from `main.py`. -/
def truncateText (text : String) (maxChars : Int) : String :=
  if maxChars ≤ 0 then ""
  else if (text.length : Int) ≤ maxChars then text
  else pyTake text maxChars.toNat
        ++ "\n... [truncated " ++ toString ((text.length : Int) - maxChars) ++ " chars]"

/-- `ShellCommandLogger` state: configuration plus the events recorded so
far (the jsonl file receives exactly the same records, in the same order). -/
structure ShellCommandLogger where
  log_path : String
  max_output_chars : Int
  events : List CommandEvent
deriving DecidableEq, Repr

/-- The event record `ShellCommandLogger.log` builds: stdout and stderr are
truncated to the configured budget before storage. -/
def mkEvent (maxChars : Int) (source cwd command : String) (timeout_ms : Int)
    (timed_out : Bool) (exit_code : Option Int) (duration_ms : Nat)
    (stdout stderr : String) (blocked : Bool) (block_reason : String) :
    CommandEvent :=
  ⟨source, cwd, command, timeout_ms, timed_out, exit_code, duration_ms,
   blocked, block_reason, truncateText stdout maxChars, truncateText stderr maxChars⟩

/-- `ShellCommandLogger.log`: append one event to the in-memory list and the
same JSON object as one line of the jsonl audit file. -/
def ShellCommandLogger.log (L : ShellCommandLogger) (source cwd command : String)
    (timeout_ms : Int) (timed_out : Bool) (exit_code : Option Int)
    (duration_ms : Nat) (stdout stderr : String)
    (blocked : Bool) (block_reason : String) : ShellCommandLogger :=
  { L with
    events := L.events
      ++ [mkEvent L.max_output_chars source cwd command timeout_ms timed_out
            exit_code duration_ms stdout stderr blocked block_reason] }

/-- `require_approval` from `main.py`.  The first component is the outcome
(`error` is the `RuntimeError` raised on a non-yes response); the second
records whether the console was consulted at all (with `SHELL_AUTO_APPROVE=1`
the function returns before printing or reading anything). -/
def requireApproval (autoApprove : Bool) (response : String) :
    Except Unit Unit × Bool :=
  if autoApprove then (Except.ok (), false)
  else if isYesResponse response then (Except.ok (), true)
  else (Except.error (), true)

/-- Operating-system behaviour of one `asyncio.create_subprocess_exec` call:
the spawn itself raises (e.g. the shell interpreter is missing); or the
process exits within the timeout with the given exit code, decoded output and
duration; or `asyncio.wait_for` hits the timeout, in which case the given
output is what draining after `proc.kill()` yields. -/
inductive SpawnBehavior where
  | fails
  | runs (exit_code : Int) (stdout stderr : String) (duration_ms : Nat)
  | timesOut (stdout stderr : String) (duration_ms : Nat)
deriving DecidableEq, Repr

/-- `proc.kill()` is invoked exactly when the `asyncio.TimeoutError` branch
runs, i.e. when the process did not exit within the timeout. -/
def killSignalSent : SpawnBehavior → Bool
  | .timesOut _ _ _ => true
  | _ => false

/-- The tuple returned by `_run_exec` from `code_agent.py`. -/
structure ExecResult where
  exit_code : Option Int
  stdout : String
  stderr : String
  timed_out : Bool
  duration_ms : Nat
deriving DecidableEq, Repr

/-- `_run_exec`: spawn, race `proc.communicate()` against the timeout, on
timeout kill and drain; returns
`(None if timed_out else proc.returncode, stdout, stderr, timed_out, duration_ms)`.
A failing spawn propagates the exception (there is no `try` around it). -/
def run_exec (b : SpawnBehavior) : Except Unit ExecResult :=
  match b with
  | .fails => Except.error ()
  | .runs ec o e d => Except.ok ⟨some ec, o, e, false, d⟩
  | .timesOut o e d => Except.ok ⟨none, o, e, true, d⟩

/-- `int(max(1, timeout_ms / 1000))` (equivalently `max(1, int(timeout_ms / 1000))`)
used in the "Command timed out after …s" messages. -/
def displayTimeoutS (timeout_ms : Int) : Nat :=
  max 1 (timeout_ms.toNat / 1000)

/-- The `command_list` assembly shared by both shell function tools: a
non-blank `command` argument (stripped) followed by the non-blank entries of
the `commands` argument (each stripped). -/
def buildCommandList (command : Option String) (commands : Option (List String)) :
    List String :=
  (match command with
   | some c => if pyStrip c ≠ "" then [pyStrip c] else []
   | none => []) ++
  (match commands with
   | some cs => (cs.map pyStrip).filter (fun c => c ≠ "")
   | none => [])

/-- Exceptions a shell tool call can raise: the `RuntimeError` from a denied
approval, or a propagated spawn failure. -/
inductive ToolErr where
  | approvalDenied
  | spawnFailure
deriving DecidableEq, Repr

/-- What one execution loop produces: the events appended to the audit log,
the accumulated `output_parts`, the commands a spawn was attempted for, and
whether a spawn exception was raised (dropping the parts but keeping the
already-logged events). -/
structure LoopOut where
  events : List CommandEvent
  parts : List String
  spawned : List String
  raised : Bool
deriving DecidableEq, Repr

/-- Result of one shell tool invocation.  `attempted` lists the commands that
were actually attempted in request order: the command a deny-list block fired
on, or every command a process spawn was attempted for. -/
structure ToolRun (α : Type) where
  result : Except ToolErr α
  events : List CommandEvent
  approvalRequested : Bool
  spawned : List String
  attempted : List String

/-- The execution loop of the code-agent `shell` tool
(`code_agent.build_code_shell_function_tool`): one `_run_exec` per command,
one `logger.log` per completed `_run_exec`, emit the timeout message and a
display-only `[exit_code=124]` and stop after a timeout, propagate a spawn
exception.  `i` is the spawn index into the world. -/
def codeLoop (world : Nat → SpawnBehavior) (maxChars : Int) (cwd : String)
    (timeout_ms : Int) : List String → Nat → LoopOut
  | [], _ => ⟨[], [], [], false⟩
  | c :: rest, i =>
    match world i with
    | .fails => ⟨[], ["$ " ++ c], [c], true⟩
    | .runs ec o e d =>
      let ev := mkEvent maxChars "code_shell_function" cwd c timeout_ms false
        (some ec) d o e false ""
      let tail := codeLoop world maxChars cwd timeout_ms rest (i + 1)
      ⟨ev :: tail.events,
       ("$ " ++ c)
         :: (if pyStrip (o ++ e) = "" then "(no output)" else pyStrip (o ++ e))
         :: ("[exit_code=" ++ toString ec ++ "]")
         :: tail.parts,
       c :: tail.spawned, tail.raised⟩
    | .timesOut o e d =>
      let ev := mkEvent maxChars "code_shell_function" cwd c timeout_ms true
        none d o e false ""
      ⟨[ev],
       [("$ " ++ c),
        ("Command timed out after " ++ toString (displayTimeoutS timeout_ms) ++ "s"),
        "[exit_code=124]"],
       [c], false⟩

/-- The code-agent `shell` function tool: assemble the command list, return
early when it is empty, log one blocked event and return an explanatory
string on the first deny-list match, then request approval for the whole
batch, then run the loop. -/
def codeShell (cwd : String) (maxChars : Int) (command : Option String)
    (commands : Option (List String)) (timeout_ms : Int)
    (autoApprove : Bool) (response : String) (world : Nat → SpawnBehavior) :
    ToolRun String :=
  let cl := buildCommandList command commands
  if cl.isEmpty then ⟨Except.ok "No command provided.", [], false, [], []⟩
  else
    match cl.find? (fun c => denyCodeMatch c) with
    | some c =>
      ⟨Except.ok ("Blocked unsafe command: " ++ c),
       [mkEvent maxChars "code_shell_function" cwd c timeout_ms false none 0
          "" "" true "unsafe_command_pattern"],
       false, [], [c]⟩
    | none =>
      match requireApproval autoApprove response with
      | (Except.error _, req) => ⟨Except.error ToolErr.approvalDenied, [], req, [], []⟩
      | (Except.ok _, req) =>
        let out := codeLoop world maxChars cwd timeout_ms cl 0
        ⟨if out.raised then Except.error ToolErr.spawnFailure
          else Except.ok (String.intercalate "\n" out.parts),
         out.events, req, out.spawned, out.spawned⟩

/-- The execution loop of the chat-completions `shell` tool
(`main.build_chat_shell_function_tool`): identical to `codeLoop` except for
the event source and that an empty drained stderr is replaced by the timeout
message before logging. -/
def chatLoop (world : Nat → SpawnBehavior) (maxChars : Int) (cwd : String)
    (timeout_ms : Int) : List String → Nat → LoopOut
  | [], _ => ⟨[], [], [], false⟩
  | c :: rest, i =>
    match world i with
    | .fails => ⟨[], ["$ " ++ c], [c], true⟩
    | .runs ec o e d =>
      let ev := mkEvent maxChars "azure_shell_function" cwd c timeout_ms false
        (some ec) d o e false ""
      let tail := chatLoop world maxChars cwd timeout_ms rest (i + 1)
      ⟨ev :: tail.events,
       ("$ " ++ c)
         :: (if pyStrip (o ++ e) = "" then "(no output)" else pyStrip (o ++ e))
         :: ("[exit_code=" ++ toString ec ++ "]")
         :: tail.parts,
       c :: tail.spawned, tail.raised⟩
    | .timesOut o e d =>
      let ev := mkEvent maxChars "azure_shell_function" cwd c timeout_ms true
        none d o
        (if e = ""
         then "Command timed out after " ++ toString (displayTimeoutS timeout_ms) ++ "s"
         else e)
        false ""
      ⟨[ev],
       [("$ " ++ c),
        ("Command timed out after " ++ toString (displayTimeoutS timeout_ms) ++ "s"),
        "[exit_code=124]"],
       [c], false⟩

/-- The chat-completions `shell` function tool
(`main.build_chat_shell_function_tool`): same pipeline as `codeShell` with
the stricter anchored deny list and the `azure_shell_function` source. -/
def chatShell (cwd : String) (maxChars : Int) (command : Option String)
    (commands : Option (List String)) (timeout_ms : Int)
    (autoApprove : Bool) (response : String) (world : Nat → SpawnBehavior) :
    ToolRun String :=
  let cl := buildCommandList command commands
  if cl.isEmpty then ⟨Except.ok "No command provided.", [], false, [], []⟩
  else
    match cl.find? (fun c => denyChatMatch c) with
    | some c =>
      ⟨Except.ok ("Blocked unsafe command: " ++ c),
       [mkEvent maxChars "azure_shell_function" cwd c timeout_ms false none 0
          "" "" true "unsafe_command_pattern"],
       false, [], [c]⟩
    | none =>
      match requireApproval autoApprove response with
      | (Except.error _, req) => ⟨Except.error ToolErr.approvalDenied, [], req, [], []⟩
      | (Except.ok _, req) =>
        let out := chatLoop world maxChars cwd timeout_ms cl 0
        ⟨if out.raised then Except.error ToolErr.spawnFailure
          else Except.ok (String.intercalate "\n" out.parts),
         out.events, req, out.spawned, out.spawned⟩

/-- `ShellCallOutcome` of the Agents SDK, as populated by `ShellExecutor`. -/
structure ShellCallOutcome where
  type : String
  exit_code : Option Int
deriving DecidableEq, Repr

/-- `ShellCommandOutput` of the Agents SDK, as populated by `ShellExecutor`. -/
structure ShellCommandOutput where
  command : String
  stdout : String
  stderr : String
  outcome : ShellCallOutcome
deriving DecidableEq, Repr

/-- What the `ShellExecutor.__call__` loop produces. -/
structure ExecLoopOut where
  events : List CommandEvent
  outputs : List ShellCommandOutput
  spawned : List String
  raised : Bool
deriving DecidableEq, Repr

/-- The per-command loop of `ShellExecutor.__call__` (`main.py`): spawn, race
against the timeout, on timeout kill, drain, substitute a default stderr
when the drained one is blank, report `exit_code = None` with a `timeout`
outcome, log, append the output, and stop the batch. -/
def shellExecLoop (world : Nat → SpawnBehavior) (maxChars : Int) (cwd : String)
    (timeout_ms : Int) : List String → Nat → ExecLoopOut
  | [], _ => ⟨[], [], [], false⟩
  | c :: rest, i =>
    match world i with
    | .fails => ⟨[], [], [c], true⟩
    | .runs ec o e d =>
      let ev := mkEvent maxChars "shell_tool" cwd c timeout_ms false (some ec)
        d o e false ""
      let tail := shellExecLoop world maxChars cwd timeout_ms rest (i + 1)
      ⟨ev :: tail.events,
       ⟨c, o, e, ⟨"exit", some ec⟩⟩ :: tail.outputs,
       c :: tail.spawned, tail.raised⟩
    | .timesOut o e d =>
      let e' := if pyStrip e = ""
        then "Command timed out after " ++ toString (displayTimeoutS timeout_ms) ++ "s"
        else e
      let ev := mkEvent maxChars "shell_tool" cwd c timeout_ms true none d o e'
        false ""
      ⟨[ev], [⟨c, o, e', ⟨"timeout", none⟩⟩], [c], false⟩

/-- Python `or` on the optional per-request timeout
(`action.timeout_ms or self.default_timeout_ms`): `None` and `0` both fall
back to the default. -/
def pyOrDefault (t : Option Int) (d : Int) : Int :=
  match t with
  | none => d
  | some v => if v = 0 then d else v

/-- `ShellExecutor.__call__`: approval for the whole batch first (no deny
list on this path), then the loop over `action.commands`. -/
def shellExecutorCall (cwd : String) (maxChars : Int) (default_timeout_ms : Int)
    (commands : List String) (timeout_req : Option Int)
    (autoApprove : Bool) (response : String) (world : Nat → SpawnBehavior) :
    ToolRun (List ShellCommandOutput) :=
  match requireApproval autoApprove response with
  | (Except.error _, req) => ⟨Except.error ToolErr.approvalDenied, [], req, [], []⟩
  | (Except.ok _, req) =>
    let timeout_ms := pyOrDefault timeout_req default_timeout_ms
    let out := shellExecLoop world maxChars cwd timeout_ms commands 0
    ⟨if out.raised then Except.error ToolErr.spawnFailure else Except.ok out.outputs,
     out.events, req, out.spawned, out.spawned⟩

/-- Outcome of one `Runner.run` attempt inside `run_with_retries`: a final
output, a transient error (`RateLimitError` / `APIConnectionError`, the two
caught classes), or any other exception. -/
inductive AttemptOut (α : Type) where
  | ok (v : α)
  | transient (msg : String)
  | fatal (msg : String)

/-- Exceptions escaping `run_with_retries`. -/
inductive RunErr where
  | transient (msg : String)
  | fatal (msg : String)
deriving DecidableEq, Repr

/-- The `while True` loop of `run_with_retries`, made structural on
`remaining = retries - attempt` (the Python guard `attempt > retries` holds
exactly when no retries remain).  `attemptIdx` is the value of the Python
`attempt` counter on entry to the iteration (0 for the first attempt); the
second component collects the backoff sleeps, in order, each
`backoff_seconds * 2 ** (attempt - 1)` seconds. -/
def runWithRetriesGo {α : Type} (attempts : Nat → AttemptOut α) (backoff : ℚ) :
    Nat → Nat → Except RunErr α × List ℚ
  | attemptIdx, 0 =>
    match attempts attemptIdx with
    | .ok v => (Except.ok v, [])
    | .fatal m => (Except.error (RunErr.fatal m), [])
    | .transient m => (Except.error (RunErr.transient m), [])
  | attemptIdx, remaining + 1 =>
    match attempts attemptIdx with
    | .ok v => (Except.ok v, [])
    | .fatal m => (Except.error (RunErr.fatal m), [])
    | .transient _ =>
      let t := runWithRetriesGo attempts backoff (attemptIdx + 1) remaining
      (t.1, backoff * 2 ^ attemptIdx :: t.2)

/-- `run_with_retries` from `main.py`: run the agent, retry only on the two
transient error classes with doubling backoff, re-raise the transient error
once `attempt > retries`, propagate every other exception at once. -/
def run_with_retries {α : Type} (attempts : Nat → AttemptOut α)
    (retries : Nat) (backoff : ℚ) : Except RunErr α × List ℚ :=
  runWithRetriesGo attempts backoff 0 retries

/-- The `run-summary.json` fields the claims are about. -/
structure RunSummary where
  run_status : String
  error_message : String
deriving DecidableEq, Repr

/-- `str(exc)` for the exception recorded in the summary. -/
def errMessage : RunErr → String
  | .transient m => m
  | .fatal m => m

/-- A run driver outcome: the value returned / exception re-raised, plus the
run-summary files written (in order) by the time the driver returns. -/
structure AnalysisOutcome where
  result : Except RunErr String
  summaries : List RunSummary

/-- `run_analysis` from `main.py`, from the agent call onward: `run_status`
starts as `"failed"`; the success path sets `"completed"` or
`"completed_with_warnings"` according to `validate_report`; the `except`
branch records `str(exc)` and re-raises; the `finally` block writes exactly
one `run-summary.json` whatever the body did. -/
def run_analysis (attempts : Nat → AttemptOut String) (retries : Nat)
    (backoff : ℚ) (validationPassed : String → Bool) : AnalysisOutcome :=
  match (run_with_retries attempts retries backoff).1 with
  | Except.ok report =>
    let run_status :=
      if validationPassed report then "completed" else "completed_with_warnings"
    ⟨Except.ok report, [⟨run_status, ""⟩]⟩
  | Except.error e => ⟨Except.error e, [⟨"failed", errMessage e⟩]⟩

/-- `run_code_agent` from `code_agent.py` (agents_sdk backend), from the MCP
connection onward: raise when no MCP server connected, otherwise run the
agent through `run_with_retries`; `status` starts as `"failed"` and becomes
`"completed"` on success; the `finally` block writes exactly one
`run-summary.json` whatever the body did. -/
def run_code_agent (mcpActive : List String) (attempts : Nat → AttemptOut String)
    (retries : Nat) (backoff : ℚ) : AnalysisOutcome :=
  let body : Except RunErr String :=
    if mcpActive.isEmpty then
      Except.error (RunErr.fatal "No MCP servers connected successfully.")
    else (run_with_retries attempts retries backoff).1
  match body with
  | Except.ok out => ⟨Except.ok out, [⟨"completed", ""⟩]⟩
  | Except.error e => ⟨Except.error e, [⟨"failed", errMessage e⟩]⟩

/-- The outcome `run_with_retries` produces from the attempt it stops at
(return the value, or let the exception propagate). -/
def resolveAttempt {α : Type} : AttemptOut α → Except RunErr α
  | .ok v => Except.ok v
  | .fatal m => Except.error (RunErr.fatal m)
  | .transient m => Except.error (RunErr.transient m)

theorem codeLoop_events_spawned (world : Nat → SpawnBehavior) (maxChars : Int)
    (cwd : String) (timeout_ms : Int) (hw : ∀ i, world i ≠ SpawnBehavior.fails) :
    ∀ (cs : List String) (i : Nat),
      (codeLoop world maxChars cwd timeout_ms cs i).events.map CommandEvent.command
        = (codeLoop world maxChars cwd timeout_ms cs i).spawned
      ∧ (codeLoop world maxChars cwd timeout_ms cs i).raised = false := by
  intro cs
  induction cs with
  | nil => intro i; simp [codeLoop]
  | cons c rest ih =>
    intro i
    cases hwi : world i with
    | fails => exact absurd hwi (hw i)
    | runs ec o e d =>
      have h := ih (i + 1)
      simp [codeLoop, hwi, mkEvent, h.1, h.2]
    | timesOut o e d => simp [codeLoop, hwi, mkEvent]

theorem codeLoop_spawned_sublist (world : Nat → SpawnBehavior) (maxChars : Int)
    (cwd : String) (timeout_ms : Int) :
    ∀ (cs : List String) (i : Nat),
      List.Sublist (codeLoop world maxChars cwd timeout_ms cs i).spawned cs := by
  intro cs
  induction cs with
  | nil => intro i; simp [codeLoop]
  | cons c rest ih =>
    intro i
    cases hwi : world i with
    | fails => simp [codeLoop, hwi]
    | runs ec o e d =>
      simpa [codeLoop, hwi] using (ih (i + 1)).cons₂ c
    | timesOut o e d => simp [codeLoop, hwi]

theorem chatLoop_events_spawned (world : Nat → SpawnBehavior) (maxChars : Int)
    (cwd : String) (timeout_ms : Int) (hw : ∀ i, world i ≠ SpawnBehavior.fails) :
    ∀ (cs : List String) (i : Nat),
      (chatLoop world maxChars cwd timeout_ms cs i).events.map CommandEvent.command
        = (chatLoop world maxChars cwd timeout_ms cs i).spawned
      ∧ (chatLoop world maxChars cwd timeout_ms cs i).raised = false := by
  intro cs
  induction cs with
  | nil => intro i; simp [chatLoop]
  | cons c rest ih =>
    intro i
    cases hwi : world i with
    | fails => exact absurd hwi (hw i)
    | runs ec o e d =>
      have h := ih (i + 1)
      simp [chatLoop, hwi, mkEvent, h.1, h.2]
    | timesOut o e d => simp [chatLoop, hwi, mkEvent]

theorem chatLoop_spawned_sublist (world : Nat → SpawnBehavior) (maxChars : Int)
    (cwd : String) (timeout_ms : Int) :
    ∀ (cs : List String) (i : Nat),
      List.Sublist (chatLoop world maxChars cwd timeout_ms cs i).spawned cs := by
  intro cs
  induction cs with
  | nil => intro i; simp [chatLoop]
  | cons c rest ih =>
    intro i
    cases hwi : world i with
    | fails => simp [chatLoop, hwi]
    | runs ec o e d =>
      simpa [chatLoop, hwi] using (ih (i + 1)).cons₂ c
    | timesOut o e d => simp [chatLoop, hwi]

theorem shellExecLoop_events_spawned (world : Nat → SpawnBehavior) (maxChars : Int)
    (cwd : String) (timeout_ms : Int) (hw : ∀ i, world i ≠ SpawnBehavior.fails) :
    ∀ (cs : List String) (i : Nat),
      (shellExecLoop world maxChars cwd timeout_ms cs i).events.map CommandEvent.command
        = (shellExecLoop world maxChars cwd timeout_ms cs i).spawned
      ∧ (shellExecLoop world maxChars cwd timeout_ms cs i).raised = false := by
  intro cs
  induction cs with
  | nil => intro i; simp [shellExecLoop]
  | cons c rest ih =>
    intro i
    cases hwi : world i with
    | fails => exact absurd hwi (hw i)
    | runs ec o e d =>
      have h := ih (i + 1)
      simp [shellExecLoop, hwi, mkEvent, h.1, h.2]
    | timesOut o e d => simp [shellExecLoop, hwi, mkEvent]

theorem shellExecLoop_spawned_sublist (world : Nat → SpawnBehavior) (maxChars : Int)
    (cwd : String) (timeout_ms : Int) :
    ∀ (cs : List String) (i : Nat),
      List.Sublist (shellExecLoop world maxChars cwd timeout_ms cs i).spawned cs := by
  intro cs
  induction cs with
  | nil => intro i; simp [shellExecLoop]
  | cons c rest ih =>
    intro i
    cases hwi : world i with
    | fails => simp [shellExecLoop, hwi]
    | runs ec o e d =>
      simpa [shellExecLoop, hwi] using (ih (i + 1)).cons₂ c
    | timesOut o e d => simp [shellExecLoop, hwi]


theorem backoffShift (backoff : ℚ) (j n : Nat) :
    ((List.range (n + 1)).map fun k => backoff * 2 ^ (j + k))
      = backoff * 2 ^ j :: ((List.range n).map fun k => backoff * 2 ^ (j + 1 + k)) := by
  rw [List.range_succ_eq_map, List.map_cons, List.map_map]
  refine congrArg₂ List.cons (by norm_num) ?_
  apply List.map_congr_left
  intro k _
  simp only [Function.comp_apply]
  rw [show j + Nat.succ k = j + 1 + k from by omega]

theorem runGo_allTransient {α : Type} (attempts : Nat → AttemptOut α) (backoff : ℚ)
    (m : Nat → String) (h : ∀ i, attempts i = AttemptOut.transient (m i)) :
    ∀ (remaining j : Nat),
      runWithRetriesGo attempts backoff j remaining
        = (Except.error (RunErr.transient (m (j + remaining))),
           (List.range remaining).map fun k => backoff * 2 ^ (j + k)) := by
  intro remaining
  induction remaining with
  | zero => intro j; simp [runWithRetriesGo, h j]
  | succ n ih =>
    intro j
    rw [backoffShift]
    simp only [runWithRetriesGo, h j]
    rw [ih (j + 1)]
    rw [show j + 1 + n = j + (n + 1) from by omega]

theorem runGo_stopsAt {α : Type} (attempts : Nat → AttemptOut α) (backoff : ℚ)
    (m : Nat → String) :
    ∀ (d remaining j : Nat), d ≤ remaining →
      (∀ i, j ≤ i → i < j + d → attempts i = AttemptOut.transient (m i)) →
      (∀ m', attempts (j + d) ≠ AttemptOut.transient m') →
      runWithRetriesGo attempts backoff j remaining
        = (resolveAttempt (attempts (j + d)),
           (List.range d).map fun k => backoff * 2 ^ (j + k)) := by
  intro d
  induction d with
  | zero =>
    intro remaining j _ _ h3
    cases remaining with
    | zero =>
      cases haj : attempts j with
      | ok v => simp [runWithRetriesGo, haj, resolveAttempt]
      | transient mm => exact absurd (by simpa using haj) (h3 mm)
      | fatal mm => simp [runWithRetriesGo, haj, resolveAttempt]
    | succ r =>
      cases haj : attempts j with
      | ok v => simp [runWithRetriesGo, haj, resolveAttempt]
      | transient mm => exact absurd (by simpa using haj) (h3 mm)
      | fatal mm => simp [runWithRetriesGo, haj, resolveAttempt]
  | succ n ih =>
    intro remaining j hle h2 h3
    cases remaining with
    | zero => omega
    | succ r =>
      have haj : attempts j = AttemptOut.transient (m j) :=
        h2 j (Nat.le_refl j) (by omega)
      have h3' : ∀ m', attempts (j + 1 + n) ≠ AttemptOut.transient m' := by
        intro m' hm'
        exact h3 m' (by rw [show j + (n + 1) = j + 1 + n from by omega]; exact hm')
      have hrec := ih r (j + 1) (by omega)
        (fun i hi1 hi2 => h2 i (by omega) (by omega)) h3'
      rw [backoffShift]
      simp only [runWithRetriesGo, haj]
      rw [hrec]
      rw [show j + 1 + n = j + (n + 1) from by omega]

/-- C3: `run_with_retries` retries an attempt only on a classified transient
error (`RateLimitError` / `APIConnectionError`); before retry `k` it sleeps
`initialBackoff * 2 ^ (k - 1)` seconds; with all attempts failing transiently
the delays are exactly `initialBackoff * 2 ^ 0 .. initialBackoff * 2 ^ (retries - 1)`
(for `initialBackoff = 2` and `retries = 3`: `[2, 4, 8]`) and once retries are
exhausted the next transient failure is re-raised with no further delay; a
non-transient failure propagates immediately, with no retry and no delay. -/
theorem C3_retry_backoff_policy :
    (∀ (attempts : Nat → AttemptOut String) (retries : Nat) (backoff : ℚ)
        (m : Nat → String),
      (∀ i, attempts i = AttemptOut.transient (m i)) →
      run_with_retries attempts retries backoff
        = (Except.error (RunErr.transient (m retries)),
           (List.range retries).map fun k => backoff * 2 ^ k))
    ∧ (∀ (attempts : Nat → AttemptOut String) (retries : Nat) (backoff : ℚ)
        (m : Nat → String) (k : Nat) (v : String),
      k ≤ retries →
      (∀ i, i < k → attempts i = AttemptOut.transient (m i)) →
      attempts k = AttemptOut.ok v →
      run_with_retries attempts retries backoff
        = (Except.ok v, (List.range k).map fun t => backoff * 2 ^ t))
    ∧ (∀ (attempts : Nat → AttemptOut String) (retries : Nat) (backoff : ℚ)
        (m : Nat → String) (k : Nat) (msg : String),
      k ≤ retries →
      (∀ i, i < k → attempts i = AttemptOut.transient (m i)) →
      attempts k = AttemptOut.fatal msg →
      run_with_retries attempts retries backoff
        = (Except.error (RunErr.fatal msg), (List.range k).map fun t => backoff * 2 ^ t))
    ∧ run_with_retries (fun _ => (AttemptOut.transient "rate limited" : AttemptOut String)) 3 2
        = (Except.error (RunErr.transient "rate limited"), [2, 4, 8]) := by
  refine ⟨?_, ?_, ?_, ?_⟩
  · intro attempts retries backoff m h
    have h1 := runGo_allTransient attempts backoff m h retries 0
    simpa [run_with_retries] using h1
  · intro attempts retries backoff m k v hk h2 ha
    have h0 : (0 : Nat) + k = k := by omega
    have h1 := runGo_stopsAt attempts backoff m k retries 0 hk
      (fun i _ hi => h2 i (by omega))
      (by rw [h0, ha]; exact fun m' hc => AttemptOut.noConfusion hc)
    rw [h0, ha] at h1
    simpa [run_with_retries, resolveAttempt] using h1
  · intro attempts retries backoff m k msg hk h2 ha
    have h0 : (0 : Nat) + k = k := by omega
    have h1 := runGo_stopsAt attempts backoff m k retries 0 hk
      (fun i _ hi => h2 i (by omega))
      (by rw [h0, ha]; exact fun m' hc => AttemptOut.noConfusion hc)
    rw [h0, ha] at h1
    simpa [run_with_retries, resolveAttempt] using h1
  · have h1 := runGo_allTransient (α := String) (fun _ => AttemptOut.transient "rate limited") 2
      (fun _ => "rate limited") (fun _ => rfl) 3 0
    rw [run_with_retries, h1]
    norm_num [List.range_succ]

/-- Witness for C3: a first-attempt success returns with no delay; a
non-transient failure at the first attempt raises with no delay and no retry;
three retries of all-transient failures sleep exactly 2, 4, 8 seconds and the
fourth transient failure is raised without further delay. -/
theorem C3_retry_backoff_policy_witness :
    run_with_retries (fun _ => (AttemptOut.ok "final report" : AttemptOut String)) 3 2
      = (Except.ok "final report", ([] : List ℚ))
    ∧ run_with_retries
        (fun i => if i = 0 then (AttemptOut.fatal "bad request" : AttemptOut String)
          else AttemptOut.transient "rl") 3 2
      = (Except.error (RunErr.fatal "bad request"), ([] : List ℚ))
    ∧ run_with_retries (fun _ => (AttemptOut.transient "rate limited" : AttemptOut String)) 3 2
      = (Except.error (RunErr.transient "rate limited"), [2, 4, 8]) := by
  refine ⟨?_, ?_, C3_retry_backoff_policy.2.2.2⟩
  · have h1 := C3_retry_backoff_policy.2.1 (fun _ => AttemptOut.ok "final report") 3 2
      (fun _ => "") 0 "final report" (by omega) (fun i hi => absurd hi (by omega)) rfl
    simpa using h1
  · have h1 := C3_retry_backoff_policy.2.2.1
      (fun i => if i = 0 then AttemptOut.fatal "bad request" else AttemptOut.transient "rl")
      3 2 (fun _ => "rl") 0 "bad request" (by omega) (fun i hi => absurd hi (by omega)) rfl
    simpa using h1

/-- C2: for every run, exactly one `run-summary.json` is written in the
guaranteed cleanup (`finally`) phase regardless of how the run terminated —
after a fully successful run (`run_status` is `"completed"` or
`"completed_with_warnings"` according to validation), after a non-retryable
error from the agent call, and after exhausted retries (both `"failed"`, with
`str(exc)` as the error message) — in `run_analysis` and in
`run_code_agent`. -/
theorem C2_run_summary_always_written
    (attempts : Nat → AttemptOut String) (retries : Nat) (backoff : ℚ)
    (validationPassed : String → Bool) (mcpActive : List String) :
    ((run_analysis attempts retries backoff validationPassed).summaries.length = 1
     ∧ (∀ rep,
        (run_analysis attempts retries backoff validationPassed).result = Except.ok rep →
        (run_analysis attempts retries backoff validationPassed).summaries
          = [⟨if validationPassed rep then "completed" else "completed_with_warnings", ""⟩])
     ∧ (∀ e,
        (run_analysis attempts retries backoff validationPassed).result = Except.error e →
        (run_analysis attempts retries backoff validationPassed).summaries
          = [⟨"failed", errMessage e⟩]))
    ∧ ((run_code_agent mcpActive attempts retries backoff).summaries.length = 1
     ∧ (∀ out,
        (run_code_agent mcpActive attempts retries backoff).result = Except.ok out →
        (run_code_agent mcpActive attempts retries backoff).summaries
          = [⟨"completed", ""⟩])
     ∧ (∀ e,
        (run_code_agent mcpActive attempts retries backoff).result = Except.error e →
        (run_code_agent mcpActive attempts retries backoff).summaries
          = [⟨"failed", errMessage e⟩])) := by
  constructor
  · cases h : (run_with_retries attempts retries backoff).1 with
    | ok report =>
      refine ⟨by simp [run_analysis, h], ?_, ?_⟩
      · intro rep hrep
        simp [run_analysis, h] at hrep ⊢
        rw [hrep]
      · intro e he
        simp [run_analysis, h] at he
    | error e =>
      refine ⟨by simp [run_analysis, h], ?_, ?_⟩
      · intro rep hrep
        simp [run_analysis, h] at hrep
      · intro e' he
        simp [run_analysis, h] at he ⊢
        rw [he]
  · by_cases hm : mcpActive.isEmpty
    · refine ⟨by simp [run_code_agent, hm], ?_, ?_⟩
      · intro out hout
        simp [run_code_agent, hm] at hout
      · intro e he
        simp [run_code_agent, hm] at he
        subst he
        simp [run_code_agent, hm, errMessage]
    · cases h : (run_with_retries attempts retries backoff).1 with
      | ok out =>
        refine ⟨by simp [run_code_agent, hm, h], ?_, ?_⟩
        · intro out' hout
          simp [run_code_agent, hm, h]
        · intro e he
          simp [run_code_agent, hm, h] at he
      | error e =>
        refine ⟨by simp [run_code_agent, hm, h], ?_, ?_⟩
        · intro out hout
          simp [run_code_agent, hm, h] at hout
        · intro e' he
          simp [run_code_agent, hm, h] at he ⊢
          rw [he]

/-- Witness for C2: one summary with the matching `run_status` in each of the
three termination modes — success, non-retryable failure, exhausted
retries. -/
theorem C2_run_summary_always_written_witness :
    (run_analysis (fun _ => AttemptOut.ok "report text") 2 2 (fun _ => true)).summaries
      = [⟨"completed", ""⟩]
    ∧ (run_analysis (fun _ => AttemptOut.fatal "boom") 2 2 (fun _ => true)).summaries
      = [⟨"failed", "boom"⟩]
    ∧ (run_analysis (fun _ => AttemptOut.transient "429 rate limit") 2 2 (fun _ => true)).summaries
      = [⟨"failed", "429 rate limit"⟩] := by
  refine ⟨?_, ?_, ?_⟩
  · have h1 := (C2_run_summary_always_written (fun _ => AttemptOut.ok "report text") 2 2
      (fun _ => true) []).1.2.1 "report text" rfl
    simpa using h1
  · exact (C2_run_summary_always_written (fun _ => AttemptOut.fatal "boom") 2 2
      (fun _ => true) []).1.2.2 (RunErr.fatal "boom") rfl
  · exact (C2_run_summary_always_written (fun _ => AttemptOut.transient "429 rate limit") 2 2
      (fun _ => true) []).1.2.2 (RunErr.transient "429 rate limit") rfl

/-- C9 (amended): every recorded CommandEvent stores stdout and stderr passed
through `_truncate_text` with the configured per-event budget; for a positive
budget, text no longer than the budget is stored unchanged and longer text is
stored as its first budget-many characters followed by a marker stating
exactly how many characters were dropped; a non-positive budget stores the
empty string (with no marker). -/
theorem C9_truncation_contract :
    (∀ (L : ShellCommandLogger) (source cwd command : String) (timeout_ms : Int)
        (timed_out : Bool) (exit_code : Option Int) (duration_ms : Nat)
        (stdout stderr : String) (blocked : Bool) (block_reason : String),
      (ShellCommandLogger.log L source cwd command timeout_ms timed_out exit_code
          duration_ms stdout stderr blocked block_reason).events
        = L.events ++ [mkEvent L.max_output_chars source cwd command timeout_ms
            timed_out exit_code duration_ms stdout stderr blocked block_reason])
    ∧ (∀ (maxChars : Int) (source cwd command : String) (timeout_ms : Int)
        (timed_out : Bool) (exit_code : Option Int) (duration_ms : Nat)
        (stdout stderr : String) (blocked : Bool) (block_reason : String),
      (mkEvent maxChars source cwd command timeout_ms timed_out exit_code
          duration_ms stdout stderr blocked block_reason).stdout
        = truncateText stdout maxChars
      ∧ (mkEvent maxChars source cwd command timeout_ms timed_out exit_code
          duration_ms stdout stderr blocked block_reason).stderr
        = truncateText stderr maxChars)
    ∧ (∀ (text : String) (b : Int), 0 < b →
      ((text.length : Int) ≤ b → truncateText text b = text)
      ∧ (b < (text.length : Int) →
         truncateText text b
           = pyTake text b.toNat
             ++ "\n... [truncated " ++ toString ((text.length : Int) - b) ++ " chars]"
         ∧ (pyTake text b.toNat).length = b.toNat))
    ∧ (∀ (text : String) (b : Int), b ≤ 0 → truncateText text b = "") := by
  refine ⟨fun _ _ _ _ _ _ _ _ _ _ _ _ => rfl,
          fun _ _ _ _ _ _ _ _ _ _ _ _ => ⟨rfl, rfl⟩, ?_, ?_⟩
  · intro text b hb
    constructor
    · intro hle
      rw [truncateText, if_neg (by omega), if_pos hle]
    · intro hlt
      refine ⟨by rw [truncateText, if_neg (by omega), if_neg (by omega)], ?_⟩
      have hbn : b.toNat ≤ text.length := by omega
      have hlen : text.length = text.data.length := rfl
      simp only [pyTake, String.length, List.length_take]
      omega
  · intro text b hb
    rw [truncateText, if_pos hb]

/-- Witness for C9 (amended): with the default budget 4000 a short text is
stored unchanged; with budget 4 the text "abcdef" is stored as "abcd" plus a
marker naming the 2 dropped characters; with budget 0 the stored text is
empty. -/
theorem C9_truncation_contract_witness :
    truncateText "abc" 4000 = "abc"
    ∧ truncateText "abcdef" 4 = "abcd" ++ "\n... [truncated " ++ toString (2 : Int) ++ " chars]"
    ∧ truncateText "abcdef" 0 = "" := by
  refine ⟨?_, ?_, ?_⟩
  · exact (C9_truncation_contract.2.2.1 "abc" 4000 (by norm_num)).1 (by decide)
  · have h1 := ((C9_truncation_contract.2.2.1 "abcdef" 4 (by norm_num)).2 (by decide)).1
    simpa using h1
  · exact C9_truncation_contract.2.2.2 "abcdef" 0 (by norm_num)

/-- C9 counterexample: the budget is configurable as any int
(`--command-log-max-output-chars`); with budget 0 the text "a" is longer than
the budget but the recorded event stores "" — not its first 0 characters
followed by a marker stating that 1 character was dropped, as the claim
requires of every budget. -/
theorem C9_truncation_counterexample :
    ((ShellCommandLogger.log ⟨"commands.jsonl", 0, []⟩ "shell_tool" "/repo" "echo hi"
        120000 false (some 0) 1 "a" "" false "").events.map CommandEvent.stdout = [""])
    ∧ ((0 : Int) < ("a".length : Int))
    ∧ ¬ ((ShellCommandLogger.log ⟨"commands.jsonl", 0, []⟩ "shell_tool" "/repo" "echo hi"
        120000 false (some 0) 1 "a" "" false "").events.map CommandEvent.stdout
          = [pyTake "a" ((0 : Int)).toNat
              ++ "\n... [truncated " ++ toString (("a".length : Int) - 0) ++ " chars]"]) := by
  refine ⟨rfl, by decide, by decide⟩

/-- C10: invoking either shell function tool with neither a `command` nor a
`commands` argument, or with only blank/whitespace command strings, returns
"No command provided." and has no other effect: no approval is requested, no
CommandEvent is recorded, and no process is spawned. -/
theorem C10_empty_command_list (cwd : String) (maxChars : Int)
    (command : Option String) (commands : Option (List String)) (timeout_ms : Int)
    (autoApprove : Bool) (response : String) (world : Nat → SpawnBehavior)
    (h : buildCommandList command commands = []) :
    codeShell cwd maxChars command commands timeout_ms autoApprove response world
      = ⟨Except.ok "No command provided.", [], false, [], []⟩
    ∧ chatShell cwd maxChars command commands timeout_ms autoApprove response world
      = ⟨Except.ok "No command provided.", [], false, [], []⟩
    ∧ buildCommandList none none = [] := by
  refine ⟨?_, ?_, rfl⟩ <;> simp [codeShell, chatShell, h]

/-- Witness for C10: no arguments at all, and blank-only arguments. -/
theorem C10_empty_command_list_witness :
    codeShell "/repo" 4000 none none 120000 false "n" (fun _ => SpawnBehavior.fails)
      = ⟨Except.ok "No command provided.", [], false, [], []⟩
    ∧ chatShell "/repo" 4000 (some "   ") (some ["", " \t "]) 120000 true "y"
        (fun _ => SpawnBehavior.fails)
      = ⟨Except.ok "No command provided.", [], false, [], []⟩ := by
  constructor
  · exact (C10_empty_command_list "/repo" 4000 none none 120000 false "n"
      (fun _ => SpawnBehavior.fails) rfl).1
  · exact (C10_empty_command_list "/repo" 4000 (some "   ") (some ["", " \t "]) 120000 true "y"
      (fun _ => SpawnBehavior.fails) rfl).2.1

/-- C4: for every command whose process does not exit within the configured
timeout, the runner sends a kill signal, still drains whatever output the
process produced, reports `timed_out = true` with `exit_code` absent (the
logged event has `exit_code = none`; the conventional "124" is synthesized by
the calling tool only for the display output), and the calling batch loop
stops issuing the remaining commands of that batch while the tool call
returns normally instead of raising. -/
theorem C4_timeout_contract :
    (∀ (o e : String) (d : Nat),
      run_exec (SpawnBehavior.timesOut o e d) = Except.ok ⟨none, o, e, true, d⟩
      ∧ killSignalSent (SpawnBehavior.timesOut o e d) = true)
    ∧ (∀ (world : Nat → SpawnBehavior) (maxChars : Int) (cwd : String)
        (timeout_ms : Int) (c : String) (rest : List String) (i : Nat)
        (o e : String) (d : Nat),
      world i = SpawnBehavior.timesOut o e d →
      codeLoop world maxChars cwd timeout_ms (c :: rest) i
        = ⟨[mkEvent maxChars "code_shell_function" cwd c timeout_ms true none d o e false ""],
           [("$ " ++ c),
            ("Command timed out after " ++ toString (displayTimeoutS timeout_ms) ++ "s"),
            "[exit_code=124]"],
           [c], false⟩)
    ∧ (∀ (cwd : String) (maxChars : Int) (command : Option String)
        (commands : Option (List String)) (timeout_ms : Int) (response : String)
        (world : Nat → SpawnBehavior) (c : String) (rest : List String)
        (o e : String) (d : Nat),
      buildCommandList command commands = c :: rest →
      (c :: rest).find? (fun x => denyCodeMatch x) = none →
      world 0 = SpawnBehavior.timesOut o e d →
      codeShell cwd maxChars command commands timeout_ms true response world
        = ⟨Except.ok (String.intercalate "\n"
             [("$ " ++ c),
              ("Command timed out after " ++ toString (displayTimeoutS timeout_ms) ++ "s"),
              "[exit_code=124]"]),
           [mkEvent maxChars "code_shell_function" cwd c timeout_ms true none d o e false ""],
           false, [c], [c]⟩) := by
  refine ⟨fun o e d => ⟨rfl, rfl⟩, ?_, ?_⟩
  · intro world maxChars cwd timeout_ms c rest i o e d hw
    simp [codeLoop, hw]
  · intro cwd maxChars command commands timeout_ms response world c rest o e d hcl hfind hw
    simp [codeShell, hcl, hfind, requireApproval, codeLoop, hw]

/-- Witness for C4: a command that times out after producing partial output,
followed by a command that is consequently never issued. -/
theorem C4_timeout_contract_witness :
    codeShell "/repo" 4000 (some "sleep 999") (some ["echo next"]) 120000 true "y"
        (fun _ => SpawnBehavior.timesOut "late output" "" 120000)
      = ⟨Except.ok (String.intercalate "\n"
           ["$ sleep 999",
            "Command timed out after " ++ toString (displayTimeoutS 120000) ++ "s",
            "[exit_code=124]"]),
         [mkEvent 4000 "code_shell_function" "/repo" "sleep 999" 120000 true none
            120000 "late output" "" false ""],
         false, ["sleep 999"], ["sleep 999"]⟩
    ∧ run_exec (SpawnBehavior.timesOut "late output" "" 120000)
        = Except.ok ⟨none, "late output", "", true, 120000⟩
    ∧ killSignalSent (SpawnBehavior.timesOut "late output" "" 120000) = true
    ∧ toString (displayTimeoutS 120000) = "120" := by
  refine ⟨?_, (C4_timeout_contract.1 "late output" "" 120000).1,
          (C4_timeout_contract.1 "late output" "" 120000).2, rfl⟩
  exact C4_timeout_contract.2.2 "/repo" 4000 (some "sleep 999") (some ["echo next"])
    120000 "y" (fun _ => SpawnBehavior.timesOut "late output" "" 120000)
    "sleep 999" ["echo next"] "late output" "" 120000 rfl rfl rfl

/-- C5: a command batch containing a command whose text matches the deny list
of the unsafe-command filter spawns no process at all; exactly one
CommandEvent is recorded — for the first matching command — with
`blocked = true` and the match reason `unsafe_command_pattern`; and an
explanatory string is returned to the caller instead of executing.  This
holds for both shell function tools and their respective deny lists. -/
theorem C5_blocked_command :
    (∀ (cwd : String) (maxChars : Int) (command : Option String)
        (commands : Option (List String)) (timeout_ms : Int) (autoApprove : Bool)
        (response : String) (world : Nat → SpawnBehavior) (c : String),
      (buildCommandList command commands).find? (fun x => denyCodeMatch x) = some c →
      codeShell cwd maxChars command commands timeout_ms autoApprove response world
        = ⟨Except.ok ("Blocked unsafe command: " ++ c),
           [mkEvent maxChars "code_shell_function" cwd c timeout_ms false none 0
              "" "" true "unsafe_command_pattern"],
           false, [], [c]⟩
      ∧ denyCodeMatch c = true)
    ∧ (∀ (cwd : String) (maxChars : Int) (command : Option String)
        (commands : Option (List String)) (timeout_ms : Int) (autoApprove : Bool)
        (response : String) (world : Nat → SpawnBehavior) (c : String),
      (buildCommandList command commands).find? (fun x => denyChatMatch x) = some c →
      chatShell cwd maxChars command commands timeout_ms autoApprove response world
        = ⟨Except.ok ("Blocked unsafe command: " ++ c),
           [mkEvent maxChars "azure_shell_function" cwd c timeout_ms false none 0
              "" "" true "unsafe_command_pattern"],
           false, [], [c]⟩
      ∧ denyChatMatch c = true)
    ∧ denyCodeMatch "rm -rf /" = true
    ∧ denyChatMatch "rm /etc/passwd" = true := by
  refine ⟨?_, ?_, rfl, rfl⟩
  · intro cwd maxChars command commands timeout_ms autoApprove response world c hfind
    have hp : denyCodeMatch c = true := by
      have h1 := List.find?_some hfind
      simpa using h1
    have hne : (buildCommandList command commands).isEmpty = false := by
      cases hcl : buildCommandList command commands with
      | nil => rw [hcl] at hfind; simp at hfind
      | cons a l => simp
    exact ⟨by simp [codeShell, hne, hfind], hp⟩
  · intro cwd maxChars command commands timeout_ms autoApprove response world c hfind
    have hp : denyChatMatch c = true := by
      have h1 := List.find?_some hfind
      simpa using h1
    have hne : (buildCommandList command commands).isEmpty = false := by
      cases hcl : buildCommandList command commands with
      | nil => rw [hcl] at hfind; simp at hfind
      | cons a l => simp
    exact ⟨by simp [chatShell, hne, hfind], hp⟩

/-- Witness for C5: the batch `["echo hi", "rm -rf /"]` is blocked on its
second command before any spawn, with exactly one blocked event. -/
theorem C5_blocked_command_witness :
    codeShell "/repo" 4000 (some "echo hi") (some ["rm -rf /"]) 120000 true "y"
        (fun _ => SpawnBehavior.runs 0 "" "" 1)
      = ⟨Except.ok ("Blocked unsafe command: " ++ "rm -rf /"),
         [mkEvent 4000 "code_shell_function" "/repo" "rm -rf /" 120000 false none 0
            "" "" true "unsafe_command_pattern"],
         false, [], ["rm -rf /"]⟩
    ∧ denyCodeMatch "rm -rf /" = true := by
  exact C5_blocked_command.1 "/repo" 4000 (some "echo hi") (some ["rm -rf /"]) 120000
    true "y" (fun _ => SpawnBehavior.runs 0 "" "" 1) "rm -rf /" rfl

/-- C6 (amended): the process runner never raises on a nonzero exit code — a
nonzero exit (for example the shell's own 127 when the command's binary is
missing) is returned to the caller as ordinary data, recorded as a normal
CommandEvent, and the batch loop continues; the only failure `_run_exec`
itself reports is its inability to spawn the process, and such a spawn
failure propagates as an exception with no CommandEvent recorded for that
command. -/
theorem C6_nonzero_exit_is_data :
    (∀ (ec : Int) (o e : String) (d : Nat),
      run_exec (SpawnBehavior.runs ec o e d) = Except.ok ⟨some ec, o, e, false, d⟩)
    ∧ (∀ b : SpawnBehavior, (∃ r, run_exec b = Except.ok r) ↔ b ≠ SpawnBehavior.fails)
    ∧ (∀ (world : Nat → SpawnBehavior) (maxChars : Int) (cwd : String)
        (timeout_ms : Int) (c : String) (rest : List String) (i : Nat)
        (ec : Int) (o e : String) (d : Nat),
      world i = SpawnBehavior.runs ec o e d →
      codeLoop world maxChars cwd timeout_ms (c :: rest) i
        = ⟨mkEvent maxChars "code_shell_function" cwd c timeout_ms false (some ec) d o e false ""
             :: (codeLoop world maxChars cwd timeout_ms rest (i + 1)).events,
           ("$ " ++ c)
             :: (if pyStrip (o ++ e) = "" then "(no output)" else pyStrip (o ++ e))
             :: ("[exit_code=" ++ toString ec ++ "]")
             :: (codeLoop world maxChars cwd timeout_ms rest (i + 1)).parts,
           c :: (codeLoop world maxChars cwd timeout_ms rest (i + 1)).spawned,
           (codeLoop world maxChars cwd timeout_ms rest (i + 1)).raised⟩)
    ∧ (∀ (world : Nat → SpawnBehavior) (maxChars : Int) (cwd : String)
        (timeout_ms : Int) (c : String) (rest : List String) (i : Nat),
      world i = SpawnBehavior.fails →
      codeLoop world maxChars cwd timeout_ms (c :: rest) i
        = ⟨[], ["$ " ++ c], [c], true⟩) := by
  refine ⟨fun ec o e d => rfl, ?_, ?_, ?_⟩
  · intro b
    cases b with
    | fails => simp [run_exec]
    | runs ec o e d => simp [run_exec]
    | timesOut o e d => simp [run_exec]
  · intro world maxChars cwd timeout_ms c rest i ec o e d hw
    simp [codeLoop, hw]
  · intro world maxChars cwd timeout_ms c rest i hw
    simp [codeLoop, hw]

/-- C6 counterexample: when the spawn itself raises there is no
CommandEvent at all and the exception propagates out of the shell tool — not
a normal CommandEvent with a non-zero synthetic status and a continuing
run, as the claim states. -/
theorem C6_counterexample :
    (codeShell "/repo" 4000 (some "ls") none 120000 true ""
        (fun _ => SpawnBehavior.fails)).result = Except.error ToolErr.spawnFailure
    ∧ (codeShell "/repo" 4000 (some "ls") none 120000 true ""
        (fun _ => SpawnBehavior.fails)).events = []
    ∧ run_exec SpawnBehavior.fails = Except.error () := by
  exact ⟨rfl, rfl, rfl⟩

/-- Witness for C6 (amended): exit code 127 from a missing command binary is
plain data in one normal CommandEvent and the loop does not raise. -/
theorem C6_nonzero_exit_is_data_witness :
    run_exec (SpawnBehavior.runs 127 "" "sh: nosuchcmd: not found\n" 4)
      = Except.ok ⟨some 127, "", "sh: nosuchcmd: not found\n", false, 4⟩
    ∧ codeLoop (fun _ => SpawnBehavior.runs 127 "" "sh: nosuchcmd: not found\n" 4)
        4000 "/repo" 120000 ["nosuchcmd"] 0
      = ⟨[mkEvent 4000 "code_shell_function" "/repo" "nosuchcmd" 120000 false (some 127) 4
            "" "sh: nosuchcmd: not found\n" false ""],
         ["$ nosuchcmd",
          pyStrip ("" ++ "sh: nosuchcmd: not found\n"),
          "[exit_code=" ++ toString (127 : Int) ++ "]"],
         ["nosuchcmd"], false⟩ := by
  refine ⟨C6_nonzero_exit_is_data.1 127 "" "sh: nosuchcmd: not found\n" 4, ?_⟩
  have h1 := C6_nonzero_exit_is_data.2.2.1 (fun _ => SpawnBehavior.runs 127 "" "sh: nosuchcmd: not found\n" 4)
    4000 "/repo" 120000 "nosuchcmd" [] 0 127 "" "sh: nosuchcmd: not found\n" 4 rfl
  rw [h1]
  simp [codeLoop]
  decide

theorem requireApproval_snd_true (autoApprove : Bool) (response : String)
    (h : (requireApproval autoApprove response).2 = true) : autoApprove = false := by
  cases autoApprove
  · rfl
  · simp [requireApproval] at h

theorem codeShell_events_attempted (cwd : String) (maxChars : Int)
    (command : Option String) (commands : Option (List String)) (timeout_ms : Int)
    (autoApprove : Bool) (response : String) (world : Nat → SpawnBehavior)
    (hw : ∀ i, world i ≠ SpawnBehavior.fails) :
    (codeShell cwd maxChars command commands timeout_ms autoApprove response world).events.map
        CommandEvent.command
      = (codeShell cwd maxChars command commands timeout_ms autoApprove response world).attempted
    ∧ List.Sublist
        (codeShell cwd maxChars command commands timeout_ms autoApprove response world).attempted
        (buildCommandList command commands) := by
  simp only [codeShell]
  split
  · simp
  · split
    · rename_i c hfind
      refine ⟨by simp [mkEvent], ?_⟩
      have hm := List.mem_of_find?_eq_some hfind
      simpa using hm
    · rename_i hfind
      split
      · simp
      · have h1 := codeLoop_events_spawned world maxChars cwd timeout_ms hw
          (buildCommandList command commands) 0
        have h2 := codeLoop_spawned_sublist world maxChars cwd timeout_ms
          (buildCommandList command commands) 0
        exact ⟨h1.1, h2⟩

theorem chatShell_events_attempted (cwd : String) (maxChars : Int)
    (command : Option String) (commands : Option (List String)) (timeout_ms : Int)
    (autoApprove : Bool) (response : String) (world : Nat → SpawnBehavior)
    (hw : ∀ i, world i ≠ SpawnBehavior.fails) :
    (chatShell cwd maxChars command commands timeout_ms autoApprove response world).events.map
        CommandEvent.command
      = (chatShell cwd maxChars command commands timeout_ms autoApprove response world).attempted
    ∧ List.Sublist
        (chatShell cwd maxChars command commands timeout_ms autoApprove response world).attempted
        (buildCommandList command commands) := by
  simp only [chatShell]
  split
  · simp
  · split
    · rename_i c hfind
      refine ⟨by simp [mkEvent], ?_⟩
      have hm := List.mem_of_find?_eq_some hfind
      simpa using hm
    · rename_i hfind
      split
      · simp
      · have h1 := chatLoop_events_spawned world maxChars cwd timeout_ms hw
          (buildCommandList command commands) 0
        have h2 := chatLoop_spawned_sublist world maxChars cwd timeout_ms
          (buildCommandList command commands) 0
        exact ⟨h1.1, h2⟩

theorem shellExecutorCall_events_attempted (cwd : String)
    (maxChars default_timeout_ms : Int) (batch : List String)
    (timeout_req : Option Int) (autoApprove : Bool) (response : String)
    (world : Nat → SpawnBehavior) (hw : ∀ i, world i ≠ SpawnBehavior.fails) :
    (shellExecutorCall cwd maxChars default_timeout_ms batch timeout_req autoApprove response
        world).events.map CommandEvent.command
      = (shellExecutorCall cwd maxChars default_timeout_ms batch timeout_req autoApprove response
          world).attempted
    ∧ List.Sublist
        (shellExecutorCall cwd maxChars default_timeout_ms batch timeout_req autoApprove response
          world).attempted
        batch := by
  simp only [shellExecutorCall]
  split
  · simp
  · have h1 := shellExecLoop_events_spawned world maxChars cwd
      (pyOrDefault timeout_req default_timeout_ms) hw batch 0
    have h2 := shellExecLoop_spawned_sublist world maxChars cwd
      (pyOrDefault timeout_req default_timeout_ms) batch 0
    exact ⟨h1.1, h2⟩

/-- C1 (amended): for every command batch routed to a shell tool, provided no
process-spawn attempt itself raises, the audit log records exactly one
CommandEvent per command actually attempted — including blocked and timed-out
commands — and the recorded event sequence lists exactly the attempted
commands, in the order the commands were issued (a subsequence of the batch).
A command whose spawn attempt raises produces no CommandEvent and aborts the
batch with the exception (see the counterexample). -/
theorem C1_one_event_per_attempted_command
    (cwd : String) (maxChars : Int) (command : Option String)
    (commands : Option (List String)) (batch : List String)
    (timeout_ms default_timeout_ms : Int) (timeout_req : Option Int)
    (autoApprove : Bool) (response : String) (world : Nat → SpawnBehavior)
    (hw : ∀ i, world i ≠ SpawnBehavior.fails) :
    ((codeShell cwd maxChars command commands timeout_ms autoApprove response world).events.map
        CommandEvent.command
      = (codeShell cwd maxChars command commands timeout_ms autoApprove response world).attempted
     ∧ List.Sublist
        (codeShell cwd maxChars command commands timeout_ms autoApprove response world).attempted
        (buildCommandList command commands))
    ∧ ((chatShell cwd maxChars command commands timeout_ms autoApprove response world).events.map
        CommandEvent.command
      = (chatShell cwd maxChars command commands timeout_ms autoApprove response world).attempted
     ∧ List.Sublist
        (chatShell cwd maxChars command commands timeout_ms autoApprove response world).attempted
        (buildCommandList command commands))
    ∧ ((shellExecutorCall cwd maxChars default_timeout_ms batch timeout_req autoApprove response
          world).events.map CommandEvent.command
      = (shellExecutorCall cwd maxChars default_timeout_ms batch timeout_req autoApprove response
          world).attempted
     ∧ List.Sublist
        (shellExecutorCall cwd maxChars default_timeout_ms batch timeout_req autoApprove response
          world).attempted
        batch) :=
  ⟨codeShell_events_attempted cwd maxChars command commands timeout_ms autoApprove response
      world hw,
   chatShell_events_attempted cwd maxChars command commands timeout_ms autoApprove response
      world hw,
   shellExecutorCall_events_attempted cwd maxChars default_timeout_ms batch timeout_req
      autoApprove response world hw⟩

/-- C1 counterexample: when the spawn for a command raises, that command was
attempted (`create_subprocess_exec` was invoked for it) but no CommandEvent
is recorded and the exception propagates, so the claimed one-event-per-
attempted-command correspondence fails on the code. -/
theorem C1_counterexample :
    (codeShell "/repo" 4000 (some "ls") none 120000 true ""
        (fun _ => SpawnBehavior.fails)).attempted = ["ls"]
    ∧ (codeShell "/repo" 4000 (some "ls") none 120000 true ""
        (fun _ => SpawnBehavior.fails)).events = []
    ∧ (codeShell "/repo" 4000 (some "ls") none 120000 true ""
        (fun _ => SpawnBehavior.fails)).result = Except.error ToolErr.spawnFailure :=
  ⟨rfl, rfl, rfl⟩

/-- Witness for C1 (amended): a concrete batch where the first command runs
and the second times out; both are attempted and logged, in order. -/
theorem C1_one_event_per_attempted_command_witness :
    ((codeShell "/repo" 4000 (some "echo hi") (some ["sleep 99"]) 120000 true "y"
        (fun i => if i = 0 then SpawnBehavior.runs 0 "hi\n" "" 3
          else SpawnBehavior.timesOut "" "" 120000)).events.map CommandEvent.command
      = (codeShell "/repo" 4000 (some "echo hi") (some ["sleep 99"]) 120000 true "y"
          (fun i => if i = 0 then SpawnBehavior.runs 0 "hi\n" "" 3
            else SpawnBehavior.timesOut "" "" 120000)).attempted)
    ∧ List.Sublist
        (codeShell "/repo" 4000 (some "echo hi") (some ["sleep 99"]) 120000 true "y"
          (fun i => if i = 0 then SpawnBehavior.runs 0 "hi\n" "" 3
            else SpawnBehavior.timesOut "" "" 120000)).attempted
        (buildCommandList (some "echo hi") (some ["sleep 99"])) :=
  (C1_one_event_per_attempted_command "/repo" 4000 (some "echo hi")
    (some ["sleep 99"]) [] 120000 120000 none true "y"
    (fun i => if i = 0 then SpawnBehavior.runs 0 "hi\n" "" 3
      else SpawnBehavior.timesOut "" "" 120000)
    (fun i => by by_cases h : i = 0 <;> simp [h])).1

/-- C7: with the environment auto-approve flag set, `require_approval` grants
approval immediately with no interaction; otherwise a single yes/no
confirmation covers the whole batch before any command executes, and a
declined confirmation raises the fatal RuntimeError, aborting the whole
containing tool call with zero CommandEvents recorded for that batch and no
process spawned. -/
theorem C7_approval_gate :
    (∀ response, requireApproval true response = (Except.ok (), false))
    ∧ (∀ response, isYesResponse response = false →
       requireApproval false response = (Except.error (), true))
    ∧ (∀ (cwd : String) (maxChars default_timeout_ms : Int) (batch : List String)
        (timeout_req : Option Int) (response : String) (world : Nat → SpawnBehavior),
      isYesResponse response = false →
      shellExecutorCall cwd maxChars default_timeout_ms batch timeout_req false response world
        = ⟨Except.error ToolErr.approvalDenied, [], true, [], []⟩)
    ∧ (∀ (cwd : String) (maxChars : Int) (command : Option String)
        (commands : Option (List String)) (timeout_ms : Int) (response : String)
        (world : Nat → SpawnBehavior),
      isYesResponse response = false →
      (buildCommandList command commands).isEmpty = false →
      (buildCommandList command commands).find? (fun x => denyCodeMatch x) = none →
      codeShell cwd maxChars command commands timeout_ms false response world
        = ⟨Except.error ToolErr.approvalDenied, [], true, [], []⟩)
    ∧ (∀ (cwd : String) (maxChars : Int) (command : Option String)
        (commands : Option (List String)) (timeout_ms : Int) (response : String)
        (world : Nat → SpawnBehavior),
      isYesResponse response = false →
      (buildCommandList command commands).isEmpty = false →
      (buildCommandList command commands).find? (fun x => denyChatMatch x) = none →
      chatShell cwd maxChars command commands timeout_ms false response world
        = ⟨Except.error ToolErr.approvalDenied, [], true, [], []⟩)
    ∧ isYesResponse "no" = false ∧ isYesResponse "n" = false := by
  refine ⟨fun response => rfl, ?_, ?_, ?_, ?_, rfl, rfl⟩
  · intro response h
    simp [requireApproval, h]
  · intro cwd maxChars default_timeout_ms batch timeout_req response world h
    simp [shellExecutorCall, requireApproval, h]
  · intro cwd maxChars command commands timeout_ms response world h hne hfind
    simp [codeShell, hne, hfind, requireApproval, h]
  · intro cwd maxChars command commands timeout_ms response world h hne hfind
    simp [chatShell, hne, hfind, requireApproval, h]

/-- Witness for C7: auto-approve grants with no interaction; the batch
`["rm file"]` with a simulated "n" response is denied with zero events and
zero spawns; a declined safe batch on the code-agent tool likewise. -/
theorem C7_approval_gate_witness :
    requireApproval true "whatever" = (Except.ok (), false)
    ∧ shellExecutorCall "/repo" 4000 120000 ["rm file"] none false "n"
        (fun _ => SpawnBehavior.runs 0 "" "" 1)
      = ⟨Except.error ToolErr.approvalDenied, [], true, [], []⟩
    ∧ codeShell "/repo" 4000 (some "ls") none 120000 false "no"
        (fun _ => SpawnBehavior.runs 0 "" "" 1)
      = ⟨Except.error ToolErr.approvalDenied, [], true, [], []⟩ :=
  ⟨C7_approval_gate.1 "whatever",
   C7_approval_gate.2.2.1 "/repo" 4000 120000 ["rm file"] none "n"
     (fun _ => SpawnBehavior.runs 0 "" "" 1) rfl,
   C7_approval_gate.2.2.2.1 "/repo" 4000 (some "ls") none 120000 "no"
     (fun _ => SpawnBehavior.runs 0 "" "" 1) rfl rfl rfl⟩

/-- C8 (amended): every command the agent requests is routed through the
unsafe-command filter first, then the approval gate, then the sandboxed
runner, with each attempt emitted to the audit log: the approval prompt is
only ever reached after the whole batch has passed the filter, and a process
is only spawned after the batch has passed both the filter and the gate
(`ShellExecutor` applies no filter; there approval alone guards spawning).
In the code the filter check runs before — not after — the approval gate
(see the counterexample). -/
theorem C8_pipeline_order :
    (∀ (cwd : String) (maxChars : Int) (command : Option String)
        (commands : Option (List String)) (timeout_ms : Int) (autoApprove : Bool)
        (response : String) (world : Nat → SpawnBehavior),
      ((codeShell cwd maxChars command commands timeout_ms autoApprove response
          world).approvalRequested = true →
        autoApprove = false
        ∧ (buildCommandList command commands).find? (fun x => denyCodeMatch x) = none)
      ∧ ((codeShell cwd maxChars command commands timeout_ms autoApprove response
          world).spawned ≠ [] →
        (buildCommandList command commands).find? (fun x => denyCodeMatch x) = none
        ∧ (requireApproval autoApprove response).1 = Except.ok ())
      ∧ ((∀ i, world i ≠ SpawnBehavior.fails) →
        (codeShell cwd maxChars command commands timeout_ms autoApprove response
            world).events.map CommandEvent.command
          = (codeShell cwd maxChars command commands timeout_ms autoApprove response
              world).attempted))
    ∧ (∀ (cwd : String) (maxChars : Int) (command : Option String)
        (commands : Option (List String)) (timeout_ms : Int) (autoApprove : Bool)
        (response : String) (world : Nat → SpawnBehavior),
      ((chatShell cwd maxChars command commands timeout_ms autoApprove response
          world).approvalRequested = true →
        autoApprove = false
        ∧ (buildCommandList command commands).find? (fun x => denyChatMatch x) = none)
      ∧ ((chatShell cwd maxChars command commands timeout_ms autoApprove response
          world).spawned ≠ [] →
        (buildCommandList command commands).find? (fun x => denyChatMatch x) = none
        ∧ (requireApproval autoApprove response).1 = Except.ok ()))
    ∧ (∀ (cwd : String) (maxChars default_timeout_ms : Int) (batch : List String)
        (timeout_req : Option Int) (autoApprove : Bool) (response : String)
        (world : Nat → SpawnBehavior),
      (shellExecutorCall cwd maxChars default_timeout_ms batch timeout_req autoApprove
          response world).spawned ≠ [] →
      (requireApproval autoApprove response).1 = Except.ok ()) := by
  refine ⟨?_, ?_, ?_⟩
  · intro cwd maxChars command commands timeout_ms autoApprove response world
    refine ⟨?_, ?_, ?_⟩
    · simp only [codeShell]
      split
      · intro hreq; simp at hreq
      · split
        · intro hreq; simp at hreq
        · rename_i hfind
          split
          · rename_i u req heq
            intro hreq
            simp only at hreq
            exact ⟨requireApproval_snd_true autoApprove response (by rw [heq]; exact hreq),
                   hfind⟩
          · rename_i u req heq
            intro hreq
            simp only at hreq
            exact ⟨requireApproval_snd_true autoApprove response (by rw [heq]; exact hreq),
                   hfind⟩
    · simp only [codeShell]
      split
      · intro hsp; simp at hsp
      · split
        · intro hsp; simp at hsp
        · rename_i hfind
          split
          · intro hsp; simp at hsp
          · rename_i u req heq
            intro _
            exact ⟨hfind, by rw [heq]⟩
    · intro hw
      exact (codeShell_events_attempted cwd maxChars command commands timeout_ms
        autoApprove response world hw).1
  · intro cwd maxChars command commands timeout_ms autoApprove response world
    constructor
    · simp only [chatShell]
      split
      · intro hreq; simp at hreq
      · split
        · intro hreq; simp at hreq
        · rename_i hfind
          split
          · rename_i u req heq
            intro hreq
            simp only at hreq
            exact ⟨requireApproval_snd_true autoApprove response (by rw [heq]; exact hreq),
                   hfind⟩
          · rename_i u req heq
            intro hreq
            simp only at hreq
            exact ⟨requireApproval_snd_true autoApprove response (by rw [heq]; exact hreq),
                   hfind⟩
    · simp only [chatShell]
      split
      · intro hsp; simp at hsp
      · split
        · intro hsp; simp at hsp
        · rename_i hfind
          split
          · intro hsp; simp at hsp
          · rename_i u req heq
            intro _
            exact ⟨hfind, by rw [heq]⟩
  · intro cwd maxChars default_timeout_ms batch timeout_req autoApprove response world
    simp only [shellExecutorCall]
    split
    · intro hsp; simp at hsp
    · rename_i u req heq
      intro _
      rw [heq]

/-- C8 counterexample: a batch whose only command matches the deny list is
blocked — a filter outcome is produced and one blocked CommandEvent recorded
— while approval was never requested, let alone granted: the filter check
runs before the approval gate, contradicting the claimed
approval-then-filter order. -/
theorem C8_counterexample :
    (codeShell "/repo" 4000 (some "mkfs") none 120000 false "n"
        (fun _ => SpawnBehavior.runs 0 "" "" 1)).approvalRequested = false
    ∧ (codeShell "/repo" 4000 (some "mkfs") none 120000 false "n"
        (fun _ => SpawnBehavior.runs 0 "" "" 1)).events.map CommandEvent.blocked = [true]
    ∧ (codeShell "/repo" 4000 (some "mkfs") none 120000 false "n"
        (fun _ => SpawnBehavior.runs 0 "" "" 1)).result
      = Except.ok "Blocked unsafe command: mkfs"
    ∧ (requireApproval false "n").1 = Except.error ()
    ∧ (Except.error () : Except Unit Unit) ≠ Except.ok () := by
  exact ⟨rfl, rfl, rfl, rfl, fun h => Except.noConfusion h⟩

/-- Witness for C8 (amended): a safe approved batch does spawn, and the
theorem yields that its batch passed the filter and approval was granted. -/
theorem C8_pipeline_order_witness :
    (buildCommandList (some "ls") none).find? (fun x => denyCodeMatch x) = none
    ∧ (requireApproval false "y").1 = Except.ok () :=
  (C8_pipeline_order.1 "/repo" 4000 (some "ls") none 120000 false "y"
    (fun _ => SpawnBehavior.runs 0 "" "" 1)).2.1 (by decide)
